import Mathlib

/-
Verification of the request-authentication layer in
`src/app/routers/iri_router.py` (IriRouter, get_real_ip, AuthenticatedAdapter).

The Python module is shallowly embedded:
- the process environment (`os.environ`) is a lookup function `Env`;
- the dynamic import machinery (`importlib.import_module` / `getattr`) is an
  `ImportWorld`: a map from module paths to modules, each module a map from
  symbol names to classes, together with the `issubclass` relation;
- a Python class carries the behaviour of its `get_current_user` method, a
  call that either returns a `str | None` value or raises;
- `IriRouter.create_adapter` becomes a function from the router record to
  `Except PyError IriRouter` (an `Except.error` models an exception escaping
  construction);
- `IriRouter.current_user` becomes a function returning the (possibly
  updated) request together with the `HTTPException` raised, if any; the
  request is returned unchanged when the 403 is raised, mirroring that the
  Python code raises before any assignment to `request.state`.
-/

namespace IriFacility

/-- Python truthiness of a `str | None` value: `None` and `""` are falsy. -/
def falsyStr : Option String → Bool
  | none => true
  | some s => s.isEmpty

/-- The two request-state fields written by `current_user`
(`request.state.current_user_id`, `request.state.api_key`);
`none` models "attribute never set". -/
structure RequestState where
  current_user_id : Option String
  api_key : Option String

/-- The parts of a FastAPI `Request` the module reads and writes:
header lookup, `request.client.host`, and `request.state`. -/
structure Request where
  headers : String → Option String
  clientHost : String
  state : RequestState

/-- Embedding of `get_real_ip` (src/app/routers/iri_router.py lines 12-20):
`HTTP_X_REAL_IP` header if truthy, else `x-real-ip` if truthy, else
`request.client.host`. -/
def get_real_ip (request : Request) : Option String :=
  let ip1 := request.headers "HTTP_X_REAL_IP"
  if falsyStr ip1 then
    let ip2 := request.headers "x-real-ip"
    if falsyStr ip2 then some request.clientHost else ip2
  else ip1

/-- Result of calling an adapter's `get_current_user`: it either raises some
exception or returns a `str | None` value. -/
inductive CallResult where
  | raises (message : String)
  | returns (value : Option String)

/-- A Python class as the module sees one: a name and the behaviour of the
`get_current_user` method of its instances (credential, client ip). -/
structure PyClass where
  name : String
  get_current_user_impl : String → Option String → CallResult

/-- An adapter instance; `Instance.mk cls` models the no-argument
construction `AdapterClass()`. -/
structure Instance where
  cls : PyClass

/-- A loaded Python module: `getattr` on symbol names. -/
def PyModule := String → Option PyClass

/-- The dynamic-import world: `importlib.import_module` and the
`issubclass` relation between classes. -/
structure ImportWorld where
  modules : String → Option PyModule
  subclassOf : PyClass → PyClass → Bool

/-- The process environment `os.environ`. -/
abbrev Env := String → Option String

/-- The state of an `IriRouter` touched by this module: its route path
(`self.prefix`), `self.include_in_schema`, and the `self.adapter`
attribute (`none` models "attribute never assigned"). -/
structure IriRouter where
  pfx : String
  include_in_schema : Bool
  adapter : Option Instance

/-- An exception escaping `create_adapter`. -/
inductive PyError where
  | importErr (moduleName : String)
  | attrErr (moduleName symbolName : String)
  | indexErr
  | raisedExn (message : String)
deriving DecidableEq

/-- `fastapi.HTTPException`: status code and detail message. -/
structure HTTPException where
  status_code : Nat
  detail : String
deriving DecidableEq

/-- The allow-list of truthy strings for `IRI_SHOW_MISSING_ROUTES`
(iri_router.py line 38). -/
def truthyValues : List String := ["true", "1", "on", "yes"]

/-- Embedding of the check
`os.environ.get("IRI_SHOW_MISSING_ROUTES") not in ["true","1","on","yes"]`
(negated: `true` means the flag is enabled). A missing variable is `None`,
which is not in the list. -/
def showMissingRoutes (env : Env) : Bool :=
  match env "IRI_SHOW_MISSING_ROUTES" with
  | some v => truthyValues.contains v
  | none => false

/-- Python `s.replace("/", "")`: for the one-character pattern this removes
every `'/'`. -/
def removeSlashes (s : String) : String :=
  String.mk (s.data.filter (fun c => c ≠ '/'))

/-- Python `s.strip()`: drop leading and trailing whitespace. -/
def stripStr (s : String) : String :=
  String.mk (((s.data.dropWhile Char.isWhitespace).reverse.dropWhile
    Char.isWhitespace).reverse)

/-- `self.prefix.replace("/", "").strip()` (iri_router.py line 31). -/
def routerNameOfPath (p : String) : String := stripStr (removeSlashes p)

/-- The per-group environment key `f"IRI_API_ADAPTER_{router_name}"`
(iri_router.py line 36). -/
def envVarName (routerName : String) : String := "IRI_API_ADAPTER_" ++ routerName

/-- Split a character list at its last `'.'`: `some (before, after)` when a
dot occurs, `none` otherwise. -/
def splitLastDot : List Char → Option (List Char × List Char)
  | [] => none
  | c :: rest =>
    match splitLastDot rest with
    | some (a, b) => some (c :: a, b)
    | none => if c = '.' then some ([], rest) else none

/-- Embedding of `adapter_name.rsplit(".", 1)` (iri_router.py line 46):
split on the final `"."` into at most two pieces. -/
def rsplitDot (s : String) : List String :=
  match splitLastDot s.data with
  | some (a, b) => [String.mk a, String.mk b]
  | none => [s]

/-- Embedding of `IriRouter.create_adapter` (iri_router.py lines 29-54).
`router_adapter` is the required capability-contract class passed to the
constructor. `Except.ok` carries the updated router; `Except.error` models
an exception aborting construction (so nothing is assigned). -/
def create_adapter (w : ImportWorld) (env : Env) (router_adapter : PyClass)
    (r : IriRouter) : Except PyError IriRouter :=
  let router_name := routerNameOfPath r.pfx
  let env_var := envVarName router_name
  if (env env_var).isNone && !(showMissingRoutes env) then
    Except.ok { r with include_in_schema := false }
  else
    let adapter_name := (env env_var).getD "app.demo_adapter.DemoAdapter"
    let parts := rsplitDot adapter_name
    match parts.get? 0 with
    | none => Except.error PyError.indexErr
    | some modulePath =>
      match w.modules modulePath with
      | none => Except.error (PyError.importErr modulePath)
      | some moduleVal =>
        match parts.get? 1 with
        | none => Except.error PyError.indexErr
        | some symbolName =>
          match moduleVal symbolName with
          | none => Except.error (PyError.attrErr modulePath symbolName)
          | some AdapterClass =>
            if w.subclassOf AdapterClass router_adapter then
              Except.ok { r with adapter := some (Instance.mk AdapterClass) }
            else
              Except.error (PyError.raisedExn
                (adapter_name ++ " should implement FacilityAdapter"))

/-- Embedding of `IriRouter.current_user` (iri_router.py lines 57-70).
Returns the request (updated only on success) and the raised
`HTTPException`, if any. A missing `self.adapter` attribute raises
`AttributeError` inside the `try`, which the broad `except Exception`
catches, leaving `user_id = None`. -/
def current_user (router : IriRouter) (req : Request) (api_key : String) :
    Request × Option HTTPException :=
  let user_id : Option String :=
    match router.adapter with
    | none => none
    | some inst =>
      match inst.cls.get_current_user_impl api_key (get_real_ip req) with
      | CallResult.raises _ => none
      | CallResult.returns v => v
  if falsyStr user_id then
    (req, some ⟨403, "Unauthorized access"⟩)
  else
    ({ req with state := { current_user_id := user_id, api_key := some api_key } }, none)

/-- Substring test on character lists, used to state what an error message
mentions. -/
def hasSubList (needle : List Char) : List Char → Bool
  | [] => needle.isEmpty
  | c :: t => needle.isPrefixOf (c :: t) || hasSubList needle t

/-- `containsSub hay sub` holds when `sub` occurs contiguously in `hay`. -/
def containsSub (hay sub : String) : Bool := hasSubList sub.data hay.data

/-! ### Concrete fixtures for witnesses and counterexamples -/

/-- An adapter class whose `get_current_user` always raises. -/
def raisingClass : PyClass := ⟨"BoomAdapter", fun _ _ => CallResult.raises "boom"⟩

/-- An adapter class whose `get_current_user` always returns `"user-42"`. -/
def okClass : PyClass := ⟨"GoodAdapter", fun _ _ => CallResult.returns (some "user-42")⟩

/-- An adapter class whose `get_current_user` returns the empty string. -/
def emptyClass : PyClass := ⟨"EmptyAdapter", fun _ _ => CallResult.returns (some "")⟩

/-- The abstract contract class defined in this module
(`AuthenticatedAdapter`, iri_router.py lines 73-99). -/
def authContract : PyClass := ⟨"AuthenticatedAdapter", fun _ _ => CallResult.returns none⟩

/-- A request with no headers. -/
def reqPlain : Request := ⟨fun _ => none, "10.0.0.7", ⟨none, none⟩⟩

/-- A request carrying only `x-real-ip: 9.9.9.9`. -/
def reqXReal : Request :=
  ⟨fun h => if h = "x-real-ip" then some "9.9.9.9" else none, "10.0.0.7", ⟨none, none⟩⟩

/-- An environment with no variables set. -/
def envEmpty : Env := fun _ => none

/-- An import world with no modules. -/
def wEmpty : ImportWorld := ⟨fun _ => none, fun _ _ => false⟩

/-- A router whose bound adapter raises. -/
def routerRaise : IriRouter := ⟨"/facility", true, some ⟨raisingClass⟩⟩

/-- A router whose bound adapter succeeds. -/
def routerOk : IriRouter := ⟨"/facility", true, some ⟨okClass⟩⟩

/-- A freshly constructed router, before `create_adapter` runs. -/
def r0 : IriRouter := ⟨"/facility", true, none⟩

/-- The demo adapter class (`app.demo_adapter.DemoAdapter`). -/
def demoClass : PyClass := ⟨"DemoAdapter", fun _ _ => CallResult.returns (some "demo-user")⟩

/-- The `app.demo_adapter` module. -/
def demoModule : PyModule := fun s => if s = "DemoAdapter" then some demoClass else none

/-- An import world where the demo module loads and every class passes the
subclass check. -/
def wDemo : ImportWorld :=
  ⟨fun m => if m = "app.demo_adapter" then some demoModule else none, fun _ _ => true⟩

/-- Environment with only `IRI_SHOW_MISSING_ROUTES=true`. -/
def envShow : Env := fun k => if k = "IRI_SHOW_MISSING_ROUTES" then some "true" else none

/-- Environment with only the spec-claimed (wrong) flag name set. -/
def envC4 : Env :=
  fun k => if k = "IRI_API_SHOW_MISSING_ROUTES" then some "true" else none

/-- Environment configuring only the uppercased per-group key. -/
def envC5 : Env :=
  fun k => if k = "IRI_API_ADAPTER_FACILITY" then some "app.demo_adapter.DemoAdapter" else none

/-- Environment with only an unrelated variable set. -/
def envOther : Env := fun k => if k = "OTHER_VAR" then some "x" else none

/-- A loadable class that fails the contract check. -/
def badClass : PyClass := ⟨"BadAdapter", fun _ _ => CallResult.returns none⟩

/-- The module holding `badClass`. -/
def badModule : PyModule := fun s => if s = "BadAdapter" then some badClass else none

/-- An import world where `bad.module.BadAdapter` loads but fails
`issubclass`. -/
def wBad : ImportWorld :=
  ⟨fun m => if m = "bad.module" then some badModule else none, fun _ _ => false⟩

/-- Environment configuring the facility group with `bad.module.BadAdapter`. -/
def envC6 : Env :=
  fun k => if k = "IRI_API_ADAPTER_facility" then some "bad.module.BadAdapter" else none

/-- Environment configuring the facility group with `bad.mod.Missing`. -/
def envC8 : Env :=
  fun k => if k = "IRI_API_ADAPTER_facility" then some "bad.mod.Missing" else none

/-- An import world where `bad.mod` exists but holds no symbols. -/
def wNoSym : ImportWorld :=
  ⟨fun m => if m = "bad.mod" then some (fun _ => none) else none, fun _ _ => false⟩

/-! ### Helper lemmas -/

/-- A `str | None` value is falsy exactly when it is `None` or `""`. -/
theorem falsyStr_iff (o : Option String) : falsyStr o = true ↔ o = none ∨ o = some "" := by
  cases o with
  | none => simp [falsyStr]
  | some s => simp [falsyStr, String.isEmpty_iff]

/-- The empty string is empty. -/
theorem isEmpty_nil : "".isEmpty = true := rfl

/-- A non-empty string has `isEmpty = false`. -/
theorem isEmpty_false_of_ne (v : String) (h : v ≠ "") : v.isEmpty = false := by
  cases hv : v.isEmpty
  · rfl
  · exact absurd ((String.isEmpty_iff v).mp hv) h

/-- When the per-group key is unset and the show-missing flag is not truthy,
`create_adapter` hides the route and binds nothing. -/
theorem createAdapter_hidden_eval (w : ImportWorld) (env : Env)
    (router_adapter : PyClass) (r : IriRouter)
    (hkey : env (envVarName (routerNameOfPath r.pfx)) = none)
    (hflag : showMissingRoutes env = false) :
    create_adapter w env router_adapter r =
      Except.ok { r with include_in_schema := false } := by
  simp [create_adapter, hkey, hflag]

/-- A dot-free character list has no last-dot split. -/
theorem splitLastDot_none (b : List Char) (hb : '.' ∉ b) : splitLastDot b = none := by
  induction b with
  | nil => rfl
  | cons c t ih =>
    simp only [List.mem_cons, not_or] at hb
    simp [splitLastDot, ih hb.2]
    intro h
    exact hb.1 h.symm

/-- `splitLastDot` splits at the final dot when the tail is dot-free. -/
theorem splitLastDot_append (a b : List Char) (hb : '.' ∉ b) :
    splitLastDot (a ++ '.' :: b) = some (a, b) := by
  induction a with
  | nil => simp [splitLastDot, splitLastDot_none b hb]
  | cons c t ih => simp [splitLastDot, ih]

/-- `rsplitDot` on `mp ++ "." ++ sy` (with `sy` dot-free) yields the module
path and symbol name. -/
theorem rsplitDot_append (mp sy : String) (hdot : '.' ∉ sy.data) :
    rsplitDot (mp ++ "." ++ sy) = [mp, sy] := by
  have hdata : (mp ++ "." ++ sy).data = mp.data ++ '.' :: sy.data := by
    show (mp.data ++ ['.']) ++ sy.data = mp.data ++ '.' :: sy.data
    rw [List.append_assoc]
    rfl
  unfold rsplitDot
  rw [hdata, splitLastDot_append mp.data sy.data hdot]

/-- If the needle is a prefix of the haystack it occurs in it. -/
theorem hasSubList_of_isPrefixOf (n h : List Char) (hp : n.isPrefixOf h = true) :
    hasSubList n h = true := by
  cases h with
  | nil =>
    cases n with
    | nil => rfl
    | cons c t => simp [List.isPrefixOf] at hp
  | cons c t => simp [hasSubList, hp]

/-- Every list is a prefix of itself followed by anything. -/
theorem isPrefixOf_append_self (n t : List Char) : n.isPrefixOf (n ++ t) = true := by
  induction n with
  | nil => simp
  | cons c m ih => simp [List.isPrefixOf, ih]

/-- Occurrence is stable under prepending. -/
theorem hasSubList_append_left (n pre h : List Char) (hh : hasSubList n h = true) :
    hasSubList n (pre ++ h) = true := by
  induction pre with
  | nil => exact hh
  | cons c t ih =>
    show (n.isPrefixOf (c :: (t ++ h)) || hasSubList n (t ++ h)) = true
    simp [ih]

/-- A string occurs in itself followed by any tail. -/
theorem containsSub_append_self (a b : String) : containsSub (a ++ b) a = true :=
  hasSubList_of_isPrefixOf a.data (a.data ++ b.data) (isPrefixOf_append_self a.data b.data)

/-- A router with no `adapter` attribute denies every request with 403. -/
theorem currentUser_noAdapter (router : IriRouter) (req : Request) (api_key : String)
    (h : router.adapter = none) :
    current_user router req api_key = (req, some ⟨403, "Unauthorized access"⟩) := by
  simp [current_user, h, falsyStr]

/-! ### Claims -/

/-- C9: client-IP extraction precedence: a present non-empty `HTTP_X_REAL_IP`
header wins; otherwise a present non-empty `x-real-ip` header; otherwise the
transport peer address is returned. -/
theorem getRealIp_precedence (req : Request) :
    (∀ v, req.headers "HTTP_X_REAL_IP" = some v → v ≠ "" →
      get_real_ip req = some v) ∧
    (falsyStr (req.headers "HTTP_X_REAL_IP") = true →
      ∀ v, req.headers "x-real-ip" = some v → v ≠ "" →
        get_real_ip req = some v) ∧
    (falsyStr (req.headers "HTTP_X_REAL_IP") = true →
      falsyStr (req.headers "x-real-ip") = true →
      get_real_ip req = some req.clientHost) := by
  refine ⟨?_, ?_, ?_⟩
  · intro v hv hne
    simp [get_real_ip, hv, falsyStr, isEmpty_false_of_ne v hne]
  · intro h1 v hv hne
    rcases (falsyStr_iff _).mp h1 with hx | hx <;>
      simp [get_real_ip, hx, hv, falsyStr, isEmpty_nil, isEmpty_false_of_ne v hne]
  · intro h1 h2
    rcases (falsyStr_iff _).mp h1 with hx | hx <;>
      rcases (falsyStr_iff _).mp h2 with hy | hy <;>
        simp [get_real_ip, hx, hy, falsyStr, isEmpty_nil]

/-- C9 witness: `x-real-ip: 9.9.9.9` with no `HTTP_X_REAL_IP` yields
`9.9.9.9`; no headers at all yields the peer address. -/
theorem getRealIp_precedence_witness :
    get_real_ip reqXReal = some "9.9.9.9" ∧ get_real_ip reqPlain = some "10.0.0.7" :=
  ⟨(getRealIp_precedence reqXReal).2.1 rfl "9.9.9.9" rfl (by decide),
   (getRealIp_precedence reqPlain).2.2 rfl rfl⟩

/-- C1: with a bound adapter, if identity resolution raises any exception or
returns a falsy value, `current_user` rejects with HTTP 403 and detail
"Unauthorized access", and the request state is returned unchanged. -/
theorem currentUser_failClosed (router : IriRouter) (req : Request)
    (api_key : String) (inst : Instance)
    (hb : router.adapter = some inst)
    (h : (∃ m, inst.cls.get_current_user_impl api_key (get_real_ip req) =
            CallResult.raises m) ∨
         (∃ v, inst.cls.get_current_user_impl api_key (get_real_ip req) =
            CallResult.returns v ∧ falsyStr v = true)) :
    current_user router req api_key = (req, some ⟨403, "Unauthorized access"⟩) := by
  rcases h with ⟨m, hm⟩ | ⟨v, hv, hfv⟩
  · simp [current_user, hb, hm, falsyStr]
  · simp [current_user, hb, hv, hfv]

/-- C1 witness: a raising adapter yields the 403 with the request unchanged. -/
theorem currentUser_failClosed_witness :
    current_user routerRaise reqPlain "key-1" =
      (reqPlain, some ⟨403, "Unauthorized access"⟩) :=
  currentUser_failClosed routerRaise reqPlain "key-1" ⟨raisingClass⟩ rfl
    (Or.inl ⟨"boom", rfl⟩)

/-- C2: with a bound adapter returning a non-empty token, `current_user`
stores the token in `request.state.current_user_id` and the credential in
`request.state.api_key`, and raises nothing. -/
theorem currentUser_success (router : IriRouter) (req : Request)
    (api_key : String) (inst : Instance) (uid : String)
    (hb : router.adapter = some inst)
    (hc : inst.cls.get_current_user_impl api_key (get_real_ip req) =
      CallResult.returns (some uid))
    (hne : uid ≠ "") :
    current_user router req api_key =
      ({ req with state := { current_user_id := some uid, api_key := some api_key } },
       none) := by
  simp [current_user, hb, hc, falsyStr, String.isEmpty_iff, hne]

/-- C2 witness: a successful adapter populates both state fields. -/
theorem currentUser_success_witness :
    current_user routerOk reqPlain "key-2" =
      ({ reqPlain with
          state := { current_user_id := some "user-42", api_key := some "key-2" } },
       none) :=
  currentUser_success routerOk reqPlain "key-2" ⟨okClass⟩ "user-42" rfl rfl (by decide)

/-- C10: a router constructed hidden (no per-group key, flag not truthy,
adapter never bound) denies every `current_user` call with 403
"Unauthorized access" and sets no request-state fields. -/
theorem hiddenRouter_denies (w : ImportWorld) (env : Env)
    (router_adapter : PyClass) (r r2 : IriRouter) (req : Request) (api_key : String)
    (hkey : env (envVarName (routerNameOfPath r.pfx)) = none)
    (hflag : showMissingRoutes env = false)
    (hinit : r.adapter = none)
    (hok : create_adapter w env router_adapter r = Except.ok r2) :
    r2.adapter = none ∧
    current_user r2 req api_key = (req, some ⟨403, "Unauthorized access"⟩) := by
  rw [createAdapter_hidden_eval w env router_adapter r hkey hflag] at hok
  have hr2 : r2 = { r with include_in_schema := false } :=
    (Except.ok.injEq _ _ ▸ hok).symm
  have hadapter : r2.adapter = none := by rw [hr2]; exact hinit
  exact ⟨hadapter, currentUser_noAdapter r2 req api_key hadapter⟩

/-- C3: with no per-group configuration entry and the show-missing flag not
truthy, construction sets `include_in_schema` to false, binds no adapter
(the `adapter` field is left untouched), and returns early without raising. -/
theorem createAdapter_hides_unconfigured (w : ImportWorld) (env : Env)
    (router_adapter : PyClass) (r : IriRouter)
    (hkey : env (envVarName (routerNameOfPath r.pfx)) = none)
    (hflag : showMissingRoutes env = false) :
    create_adapter w env router_adapter r =
      Except.ok { r with include_in_schema := false } :=
  createAdapter_hidden_eval w env router_adapter r hkey hflag

/-- C3 witness: the empty environment hides the `/facility` router. -/
theorem createAdapter_hides_unconfigured_witness :
    create_adapter wEmpty envEmpty authContract r0 =
      Except.ok ⟨"/facility", false, none⟩ :=
  createAdapter_hides_unconfigured wEmpty envEmpty authContract r0 rfl rfl

/-- C4 counterexample: with `IRI_API_SHOW_MISSING_ROUTES=true` set (the key
the claim names) the flag is still disabled and an unconfigured group is
hidden, so the decision does not read that key. -/
theorem showMissing_apiKey_not_consulted :
    envC4 "IRI_API_SHOW_MISSING_ROUTES" = some "true" ∧
    showMissingRoutes envC4 = false ∧
    create_adapter wEmpty envC4 authContract r0 =
      Except.ok ⟨"/facility", false, none⟩ :=
  ⟨rfl, rfl, rfl⟩

/-- C4 amended: the show-missing decision reads `IRI_SHOW_MISSING_ROUTES`
(not `IRI_API_SHOW_MISSING_ROUTES`); it is enabled exactly when that value
is one of "true", "1", "on", "yes" (case-sensitively); absence or any other
value counts as not enabled. -/
theorem showMissingRoutes_key_spec (env : Env) :
    showMissingRoutes env = true ↔
      ∃ v, env "IRI_SHOW_MISSING_ROUTES" = some v ∧
        (v = "true" ∨ v = "1" ∨ v = "on" ∨ v = "yes") := by
  unfold showMissingRoutes truthyValues
  cases h : env "IRI_SHOW_MISSING_ROUTES" with
  | none => simp
  | some v => simp [List.contains_cons, beq_iff_eq]

/-- C4 amended witness: `IRI_SHOW_MISSING_ROUTES=true` enables the flag. -/
theorem showMissingRoutes_key_spec_witness : showMissingRoutes envShow = true :=
  (showMissingRoutes_key_spec envShow).mpr ⟨"true", rfl, Or.inl rfl⟩

/-- C5 counterexample: the consulted key keeps the route path's original
case. With only the uppercased key `IRI_API_ADAPTER_FACILITY` configured
(and the demo world able to load it), the `/facility` group is still hidden:
the key actually consulted is `IRI_API_ADAPTER_facility`. -/
theorem adapterKey_not_uppercased :
    routerNameOfPath "/facility" = "facility" ∧
    envVarName (routerNameOfPath "/facility") = "IRI_API_ADAPTER_facility" ∧
    envC5 "IRI_API_ADAPTER_FACILITY" = some "app.demo_adapter.DemoAdapter" ∧
    create_adapter wDemo envC5 authContract r0 =
      Except.ok ⟨"/facility", false, none⟩ :=
  ⟨rfl, rfl, rfl, rfl⟩

/-- C5 amended: the per-group key is `IRI_API_ADAPTER_<groupname>` where the
group name is the route path with `"/"` removed and surrounding whitespace
stripped, case preserved (no uppercasing); construction reads the
environment only through that key and `IRI_SHOW_MISSING_ROUTES`. -/
theorem createAdapter_consultedKey (w : ImportWorld) (env env2 : Env)
    (router_adapter : PyClass) (r : IriRouter)
    (h1 : env (envVarName (routerNameOfPath r.pfx)) =
          env2 (envVarName (routerNameOfPath r.pfx)))
    (h2 : env "IRI_SHOW_MISSING_ROUTES" = env2 "IRI_SHOW_MISSING_ROUTES") :
    envVarName (routerNameOfPath r.pfx) =
      "IRI_API_ADAPTER_" ++ stripStr (removeSlashes r.pfx) ∧
    create_adapter w env router_adapter r = create_adapter w env2 router_adapter r := by
  have h3 : showMissingRoutes env = showMissingRoutes env2 := by
    unfold showMissingRoutes
    rw [h2]
  refine ⟨rfl, ?_⟩
  simp only [create_adapter]
  rw [h1, h3]

/-- C5 amended witness: two environments that agree on the two consulted
keys give identical construction results. -/
theorem createAdapter_consultedKey_witness :
    envVarName (routerNameOfPath "/facility") =
      "IRI_API_ADAPTER_" ++ stripStr (removeSlashes "/facility") ∧
    create_adapter wEmpty envEmpty authContract r0 =
      create_adapter wEmpty envOther authContract r0 :=
  createAdapter_consultedKey wEmpty envEmpty envOther authContract r0 rfl rfl

/-- C6 counterexample: when the required contract is the module's own
`AuthenticatedAdapter` class, the failure message names the fixed string
"FacilityAdapter" and does not mention the required contract's name, so the
message does not identify the required contract. -/
theorem contractMessage_fixed :
    create_adapter wBad envC6 authContract r0 =
      Except.error (PyError.raisedExn
        "bad.module.BadAdapter should implement FacilityAdapter") ∧
    containsSub "bad.module.BadAdapter should implement FacilityAdapter"
      authContract.name = false :=
  ⟨rfl, by decide⟩

/-- C6 amended: a contract-check failure aborts construction (no adapter
bound) with an exception whose message contains the offending locator and
the literal contract name "FacilityAdapter", independent of the actual
required-contract class. -/
theorem createAdapter_contract_mismatch (w : ImportWorld) (env : Env)
    (router_adapter : PyClass) (r : IriRouter) (locator mp sy : String)
    (M : PyModule) (cls : PyClass)
    (hcfg : env (envVarName (routerNameOfPath r.pfx)) = some locator)
    (hsplit : rsplitDot locator = [mp, sy])
    (hmod : w.modules mp = some M)
    (hsym : M sy = some cls)
    (hsub : w.subclassOf cls router_adapter = false) :
    create_adapter w env router_adapter r =
      Except.error (PyError.raisedExn (locator ++ " should implement FacilityAdapter")) ∧
    containsSub (locator ++ " should implement FacilityAdapter") locator = true ∧
    containsSub (locator ++ " should implement FacilityAdapter") "FacilityAdapter" = true := by
  refine ⟨?_, containsSub_append_self locator " should implement FacilityAdapter", ?_⟩
  · simp [create_adapter, hcfg, hsplit, hmod, hsym, hsub]
  · exact hasSubList_append_left "FacilityAdapter".data locator.data
      (" should implement FacilityAdapter").data (by decide)

/-- C6 amended witness: the bad adapter aborts construction with the
expected message, which mentions both the locator and "FacilityAdapter". -/
theorem createAdapter_contract_mismatch_witness :
    create_adapter wBad envC6 authContract r0 =
      Except.error (PyError.raisedExn
        ("bad.module.BadAdapter" ++ " should implement FacilityAdapter")) ∧
    containsSub ("bad.module.BadAdapter" ++ " should implement FacilityAdapter")
      "bad.module.BadAdapter" = true ∧
    containsSub ("bad.module.BadAdapter" ++ " should implement FacilityAdapter")
      "FacilityAdapter" = true :=
  createAdapter_contract_mismatch wBad envC6 authContract r0
    "bad.module.BadAdapter" "bad.module" "BadAdapter" badModule badClass
    rfl rfl rfl rfl rfl

/-- C7: an unconfigured group with the show-missing flag truthy stays
visible and binds the default locator `app.demo_adapter.DemoAdapter`: the
class loaded from module "app.demo_adapter", symbol "DemoAdapter", is
instantiated with no arguments and assigned to `self.adapter`. -/
theorem createAdapter_default_demo (w : ImportWorld) (env : Env)
    (router_adapter : PyClass) (r : IriRouter) (M : PyModule) (cls : PyClass)
    (hkey : env (envVarName (routerNameOfPath r.pfx)) = none)
    (hflag : showMissingRoutes env = true)
    (hmod : w.modules "app.demo_adapter" = some M)
    (hsym : M "DemoAdapter" = some cls)
    (hsub : w.subclassOf cls router_adapter = true) :
    create_adapter w env router_adapter r =
      Except.ok { r with adapter := some (Instance.mk cls) } := by
  have hd : rsplitDot "app.demo_adapter.DemoAdapter" =
      ["app.demo_adapter", "DemoAdapter"] := rfl
  simp [create_adapter, hkey, hflag, hd, hmod, hsym, hsub]

/-- C7 witness: the demo world binds the demo adapter and keeps the router
visible. -/
theorem createAdapter_default_demo_witness :
    create_adapter wDemo envShow authContract r0 =
      Except.ok ⟨"/facility", true, some (Instance.mk demoClass)⟩ :=
  createAdapter_default_demo wDemo envShow authContract r0 demoModule demoClass
    rfl rfl rfl rfl rfl

/-- C8: the configured locator is split at its final "." into module path
and symbol name; a nonexistent module fails construction with an import
error and a nonexistent symbol with an attribute error, so no request is
ever served by such a router. -/
theorem createAdapter_split_and_load (w : ImportWorld) (env : Env)
    (router_adapter : PyClass) (r : IriRouter) (locator mp sy : String)
    (M : PyModule)
    (hcfg : env (envVarName (routerNameOfPath r.pfx)) = some locator)
    (hdot : '.' ∉ sy.data)
    (hloc : locator = mp ++ "." ++ sy) :
    rsplitDot locator = [mp, sy] ∧
    (w.modules mp = none →
      create_adapter w env router_adapter r = Except.error (PyError.importErr mp)) ∧
    (w.modules mp = some M → M sy = none →
      create_adapter w env router_adapter r = Except.error (PyError.attrErr mp sy)) := by
  have hsplit : rsplitDot locator = [mp, sy] := by
    rw [hloc]
    exact rsplitDot_append mp sy hdot
  refine ⟨hsplit, ?_, ?_⟩
  · intro hm
    simp [create_adapter, hcfg, hsplit, hm]
  · intro hm hs
    simp [create_adapter, hcfg, hsplit, hm, hs]

/-- C8 witness: `bad.mod.Missing` splits into `bad.mod` and `Missing`; an
empty world gives an import error and a symbol-less module an attribute
error. -/
theorem createAdapter_split_and_load_witness :
    rsplitDot "bad.mod.Missing" = ["bad.mod", "Missing"] ∧
    create_adapter wEmpty envC8 authContract r0 =
      Except.error (PyError.importErr "bad.mod") ∧
    create_adapter wNoSym envC8 authContract r0 =
      Except.error (PyError.attrErr "bad.mod" "Missing") :=
  ⟨(createAdapter_split_and_load wEmpty envC8 authContract r0
      "bad.mod.Missing" "bad.mod" "Missing" (fun _ => none) rfl (by decide) rfl).1,
   (createAdapter_split_and_load wEmpty envC8 authContract r0
      "bad.mod.Missing" "bad.mod" "Missing" (fun _ => none) rfl (by decide) rfl).2.1 rfl,
   (createAdapter_split_and_load wNoSym envC8 authContract r0
      "bad.mod.Missing" "bad.mod" "Missing" (fun _ => none) rfl (by decide) rfl).2.2 rfl rfl⟩

/-- C10 witness: the concretely hidden router rejects with 403. -/
theorem hiddenRouter_denies_witness :
    (⟨"/facility", false, none⟩ : IriRouter).adapter = none ∧
    current_user ⟨"/facility", false, none⟩ reqPlain "k" =
      (reqPlain, some ⟨403, "Unauthorized access"⟩) :=
  hiddenRouter_denies wEmpty envEmpty authContract r0 ⟨"/facility", false, none⟩
    reqPlain "k" rfl rfl rfl rfl

end IriFacility
